import Mathlib

/-!
Shallow embedding of `src/warranty-form-handler.js` (Boatmate Warranty Intake,
a Cloudflare Worker module) and proofs about it.

Modelling conventions:
* JS strings are Lean `String`s; an environment variable or object field that
  may be `undefined` is an `Option String`.
* JS truthiness on strings (`!!s`, `s || d`): `none` and `some ""` are falsy.
* Durable-Object storage for the counter holds at most the single key `"n"`,
  so persisted state is an `Option Nat`.
* Network calls made by the worker (Durable Object fetch + JSON parse, HubSpot
  search/create, Brevo send) are inputs: their outcomes are fields of a
  `World` record, with `Except Unit _` standing for reject-vs-resolve.
* A JS exception that escapes the top-level handler is `Outcome.thrown`; a
  `Response` the code builds is `Outcome.response`.
-/

namespace Warranty

/-- JS `x || ""` on a possibly-undefined string field. -/
def jsFalsyStr : Option String → String
  | none => ""
  | some s => s

/-- JS truthiness of a possibly-undefined string (`!!x`). -/
def jsTruthy : Option String → Bool
  | none => false
  | some s => s ≠ ""

/-- JS `String.prototype.toLowerCase` (ASCII fragment used by this worker). -/
def jsToLower (s : String) : String := String.mk (s.data.map Char.toLower)

/-- JS `String.prototype.toUpperCase` (ASCII fragment used by this worker). -/
def jsToUpper (s : String) : String := String.mk (s.data.map Char.toUpper)

/-- JS whitespace: the code points matched by `\s` (and stripped by `trim`),
i.e. WhiteSpace ∪ LineTerminator — tab through carriage return, space, NBSP,
Ogham space mark, the U+2000–U+200A range, line/paragraph separators, narrow
no-break space, medium mathematical space, ideographic space, and the BOM. -/
def jsWhitespace (c : Char) : Bool :=
  (0x9 ≤ c.toNat && c.toNat ≤ 0xD) || c.toNat = 0x20 || c.toNat = 0xA0 ||
    c.toNat = 0x1680 || (0x2000 ≤ c.toNat && c.toNat ≤ 0x200A) ||
    c.toNat = 0x2028 || c.toNat = 0x2029 || c.toNat = 0x202F ||
    c.toNat = 0x205F || c.toNat = 0x3000 || c.toNat = 0xFEFF

/-- Drop leading JS-whitespace characters from a character list. -/
def dropLeadingWs : List Char → List Char
  | [] => []
  | c :: cs => if jsWhitespace c then dropLeadingWs cs else c :: cs

/-- JS `String.prototype.trim`: strip whitespace from both ends. -/
def jsTrim (s : String) : String :=
  String.mk (dropLeadingWs (dropLeadingWs s.data).reverse).reverse

/-- Is `pat` a prefix of `l`? -/
def listPrefixOf : List Char → List Char → Bool
  | [], _ => true
  | _ :: _, [] => false
  | p :: ps, c :: cs => p = c && listPrefixOf ps cs

/-- Does `l` contain `pat` as a contiguous sublist? -/
def containsSubAux (pat : List Char) : List Char → Bool
  | [] => listPrefixOf pat []
  | c :: cs => listPrefixOf pat (c :: cs) || containsSubAux pat cs

/-- JS `String.prototype.includes` (substring test), used on the content type. -/
def containsSub (s pat : String) : Bool := containsSubAux pat.data s.data

/-- Split a character list at every occurrence of `sep` (like
`String.split` with a one-character separator: `n` separators give `n + 1`
parts, empty parts included). -/
def splitOnChar (sep : Char) : List Char → List (List Char)
  | [] => [[]]
  | c :: cs =>
    match splitOnChar sep cs with
    | [] => [[]]
    | h :: t => if c = sep then [] :: h :: t else (c :: h) :: t

/-! ## Durable Object: `ClaimCounter` (source lines 59–81) -/

/-- The seed / start value: `(await this.state.storage.get("n")) || 100000`. -/
def counterSeed : Nat := 100000

/-- The value the counter reads: the stored `"n"` if present and truthy
(JS `||` treats a stored `0` as falsy), otherwise the seed `100000`. -/
def claimRead : Option Nat → Nat
  | none => counterSeed
  | some v => if v = 0 then counterSeed else v

/-- Body of a `ClaimCounter.fetch` response: 404 text or the JSON `{ n }`. -/
inductive CounterResp where
  | notFound
  | value (n : Nat)
deriving DecidableEq, Repr

/-- The `POST /next` body of `ClaimCounter.fetch`: read current, increment,
persist, return (source lines 72–79). Returns the response value and the new
persisted state. -/
def allocate (s : Option Nat) : Nat × Option Nat :=
  let n := claimRead s + 1
  (n, some n)

/-- Model of `ClaimCounter.fetch` (source lines 66–80): any request other than
`POST /next` gets a 404 and leaves storage untouched; `POST /next` runs
`allocate`. -/
def ClaimCounter.fetch (method path : String) (s : Option Nat) :
    CounterResp × Option Nat :=
  if method ≠ "POST" ∨ path ≠ "/next" then (.notFound, s)
  else (.value (allocate s).1, (allocate s).2)

/-- An event in the life of the counter: a successful `POST /next` call, or a
process restart. The object keeps no state outside `storage`, so a restart
reloads exactly the persisted `Option Nat`; it is the identity on that state. -/
inductive CounterEvent where
  | restart
  | alloc
deriving DecidableEq, Repr

/-- Number of `alloc` events in a schedule. -/
def numAllocs : List CounterEvent → Nat
  | [] => 0
  | .restart :: evs => numAllocs evs
  | .alloc :: evs => numAllocs evs + 1

/-- Run a schedule of allocations and restarts from persisted state `s`,
returning the issued claim numbers in order and the final persisted state. -/
def runCounter : List CounterEvent → Option Nat → List Nat × Option Nat
  | [], s => ([], s)
  | .restart :: evs, s => runCounter evs s
  | .alloc :: evs, s =>
    let r := allocate s
    let rest := runCounter evs r.2
    (r.1 :: rest.1, rest.2)

/-! ## Validation (source lines 126–129) -/

/-- One character of the VIN regex class `[A-HJ-NPR-Z0-9]`
(digits and capital letters except I, O, Q). -/
def isVinChar (c : Char) : Bool :=
  (('0' ≤ c && c ≤ '9') || ('A' ≤ c && c ≤ 'Z')) &&
    c ≠ 'I' && c ≠ 'O' && c ≠ 'Q'

/-- The VIN test `/^[A-HJ-NPR-Z0-9]{17}$/.test(vin)`. -/
def vinValid (s : String) : Bool :=
  s.data.length = 17 && s.data.all isVinChar

/-- One character of the email regex class `[^\s@]` (JS `\s`, so Unicode
whitespace is excluded; a dot is an ordinary member of the class). -/
def isAddrChar (c : Char) : Bool := !jsWhitespace c && c ≠ '@'

/-- Is there a `'.'` in the list that still has at least one character after
it? Used for the regex tail `\.[^\s@]+$`: the engine may split the domain at
any dot that leaves a nonempty remainder. -/
def dotWithTail : List Char → Bool
  | [] => false
  | [_] => false
  | c :: c2 :: cs => c = '.' || dotWithTail (c2 :: cs)

/-- The email test `/^[^\s@]+@[^\s@]+\.[^\s@]+$/.test(email)`: the string is
`a ++ "@" ++ b ++ "." ++ c` with `a`, `b`, `c` nonempty and every character
in `[^\s@]`. Since `[^\s@]` contains the dot, the engine backtracks: the
domain may be split at any dot that has at least one character before it and
one after it (so `x@.a.b` and `x@a.b.` both match, at interior dots). -/
def emailValid (s : String) : Bool :=
  match splitOnChar '@' s.data with
  | [localPart, domain] =>
    !localPart.isEmpty && localPart.all isAddrChar &&
    domain.all isAddrChar &&
    (match domain with
     | [] => false
     | _ :: rest => dotWithTail rest)
  | _ => false

/-- The VIN validation message pushed at source line 127. -/
def vinMessage : String := "VIN must be 17 chars (no I, O, Q)."

/-- The email validation message pushed at source line 128. -/
def emailMessage : String := "Email is invalid."

/-- The `errors` array built at source lines 126–128 (VIN check first). -/
def validationErrors (vin email : String) : List String :=
  (if vinValid vin then [] else [vinMessage]) ++
    (if emailValid email then [] else [emailMessage])

/-! ## Worker environment, request, and external world -/

/-- The subset of `env` (Worker variables/secrets) the handler reads.
Each may be unset. -/
structure Env where
  EMAIL_ENABLED : Option String
  EMAIL_API_ENDPOINT : Option String
  EMAIL_API_KEY : Option String
  FROM_EMAIL : Option String
  FROM_NAME : Option String
  REPLY_TO : Option String
  HUBSPOT_TOKEN : Option String
deriving DecidableEq, Repr

/-- The fields the body parser extracts (`b.vin`, `b.email`, `b.category`,
or the same names from `formData`); each may be absent. -/
structure JsonFields where
  vin : Option String
  email : Option String
  category : Option String
deriving DecidableEq, Repr

/-- Outcome of `request.json().catch(() => ({}))` on the JSON path:
* `malformed` — `json()` rejected (body not valid JSON); the `.catch` turns
  it into `{}`, so every field reads as absent;
* `jsNull` — the body was the valid JSON text `null`; the catch does not
  fire, and the later property access `b.vin` throws a TypeError;
* `obj fields` — any other JSON value; property access yields the fields
  (all absent for primitives, arrays, and objects without them). -/
inductive JsonBody where
  | malformed
  | jsNull
  | obj (fields : JsonFields)
deriving DecidableEq, Repr

/-- An inbound HTTP request as the handler consumes it: method, raw
`content-type` header, the outcome of `request.json()` on the JSON path, and
the outcome of `request.formData()` (`Except.error` = it threw). -/
structure Request where
  method : String
  contentType : String
  jsonParse : JsonBody
  formParse : Except Unit JsonFields

/-- Outcomes of the worker's outbound network calls.
`allocation` is `doStub.fetch("https://counter/next").then(r => r.json())`
yielding the `n` field; `findContact`/`createContact` are the HubSpot search
and create calls keyed by the (lowercased) email sent to them; `createTicket`
is the HubSpot ticket create; `send` is the Brevo transport outcome as a
function of the endpoint URL used. -/
structure World where
  allocation : Except Unit Nat
  findContact : String → Except Unit (Option String)
  createContact : String → Except Unit (Option String)
  createTicket : Except Unit (Option String)
  send : String → Except Unit Unit

/-! ## HubSpot contact upsert (source lines 411–422) -/

/-- A CRM call observed during the upsert, for stating which operations ran. -/
inductive CrmCall where
  | findContact (email : String)
  | createContact (email : String)
deriving DecidableEq, Repr

/-- Model of `hsUpsertContact(env, email, props)` (source lines 411–422): throw if
`HUBSPOT_TOKEN` or `email` is missing; otherwise look up by (lowercased)
email and return the hit, else create and return the new id (throwing when
the create yields no id). Also returns the list of CRM calls made. -/
def hsUpsertContact (token : Option String) (email : String)
    (find : String → Except Unit (Option String))
    (create : String → Except Unit (Option String)) :
    Except Unit String × List CrmCall :=
  if !jsTruthy token then (.error (), [])
  else if email = "" then (.error (), [])
  else
    let key := jsToLower email
    match find key with
    | .error _ => (.error (), [.findContact key])
    | .ok (some existingId) => (.ok existingId, [.findContact key])
    | .ok none =>
      match create key with
      | .error _ => (.error (), [.findContact key, .createContact key])
      | .ok (some newId) => (.ok newId, [.findContact key, .createContact key])
      | .ok none => (.error (), [.findContact key, .createContact key])

/-! ## Brevo send (source lines 299–329) -/

/-- The default Brevo endpoint (source line 300). -/
def defaultEndpoint : String := "https://api.brevo.com/v3/smtp/email"

/-- Endpoint resolution `env.EMAIL_API_ENDPOINT || "https://api.brevo.com/v3/smtp/email"`. -/
def sendEmailEndpoint (endpoint : Option String) : String :=
  if jsTruthy endpoint then jsFalsyStr endpoint else defaultEndpoint

/-- Model of `sendEmail(env, {..., from, ...})` (source lines 299–329): resolve the
endpoint with its default, `fromEmail = from || env.FROM_EMAIL`, throw when
the API key or sender is missing, otherwise the transport outcome decides
(non-2xx responses throw). -/
def sendEmail (endpoint apiKey fromParam fromEnv : Option String)
    (net : String → Except Unit Unit) : Except Unit Unit :=
  let fromEmail := if jsTruthy fromParam then fromParam else fromEnv
  if !jsTruthy apiKey || !jsTruthy fromEmail then .error ()
  else net (sendEmailEndpoint endpoint)

/-! ## The main handler (source lines 89–229) -/

/-- The gate `emailConfigured` (source lines 191–193):
`env.EMAIL_ENABLED === "true" && !!(endpoint && key && from)`. -/
def emailConfigured (env : Env) : Bool :=
  env.EMAIL_ENABLED = some "true" &&
    (jsTruthy env.EMAIL_API_ENDPOINT && jsTruthy env.EMAIL_API_KEY &&
      jsTruthy env.FROM_EMAIL)

/-- Status of the confirmation email reported in the response. -/
inductive EmailStatus where
  | sent
  | failed
  | skipped
deriving DecidableEq, Repr

/-- The `message` string chosen at source lines 223–226. -/
def statusMessage : EmailStatus → String
  | .sent => "Submitted. Confirmation email sent."
  | .failed => "Submitted. Email delivery is currently unavailable; we’ll follow up."
  | .skipped => "Submitted. (Email not configured in this environment.)"

/-- Body of a worker response: plain text, the `{ ok:false, errors }` JSON,
or the `{ ok:true, ... }` JSON of source line 228. -/
inductive RespBody where
  | text (s : String)
  | errorJson (errors : List String)
  | successJson (claimNumber : Nat) (ref : String) (contactId : Option String)
      (ticketId : Option String) (emailStatus : EmailStatus) (message : String)
deriving DecidableEq, Repr

/-- What the handler invocation produces: a `Response`, or an exception that
escapes `fetch` (the runtime then surfaces a generic error, not a `Response`
built by this code). -/
inductive Outcome where
  | response (status : Nat) (body : RespBody)
  | thrown
deriving DecidableEq, Repr

/-- Whether an outcome is one of the structured JSON bodies this code builds. -/
def isStructuredJson : Outcome → Bool
  | .response _ (.errorJson _) => true
  | .response _ (.successJson ..) => true
  | _ => false

/-- Which outbound steps the invocation reached. -/
structure Trace where
  allocCalled : Bool
  upsertAttempted : Bool
  ticketAttempted : Bool
  sendAttempted : Bool
deriving DecidableEq, Repr

/-- The trace of an invocation that made no outbound call. -/
def Trace.idle : Trace := ⟨false, false, false, false⟩

/-- Result of one handler invocation. -/
structure HandlerResult where
  outcome : Outcome
  trace : Trace
deriving DecidableEq, Repr

/-- Step 3 of the handler (source lines 104–123): if the content type includes
`application/json`, `request.json().catch(() => ({}))` degrades a parse
failure to the empty object, but a body that parses to JSON `null` makes the
later `b.vin` access throw inside the `try`; otherwise `formData()` decides.
Either exception is caught into the "Invalid request body" 400. -/
def parsedBody (req : Request) : Except Unit JsonFields :=
  if containsSub (jsToLower req.contentType) "application/json" then
    match req.jsonParse with
    | .malformed => .ok ⟨none, none, none⟩
    | .jsNull => .error ()
    | .obj b => .ok b
  else req.formParse

/-- Normalization `String(b.vin || "").trim().toUpperCase()` (source lines 110/115). -/
def normVin (b : JsonFields) : String := jsToUpper (jsTrim (jsFalsyStr b.vin))

/-- Normalization `String(b.email || "").trim()` (source lines 111/116). -/
def normEmail (b : JsonFields) : String := jsTrim (jsFalsyStr b.email)

/-- Defaulting of `category` (source lines 105, 112, 117–118): starts as
`"Warranty"`, replaced by the trimmed field only when that field is truthy. -/
def normCategory (b : JsonFields) : String :=
  match b.category with
  | some c => if c ≠ "" then jsTrim c else "Warranty"
  | none => "Warranty"

/-- Steps 5–9 of the handler (source lines 140–228), entered after validation
passed: allocation (uncaught on failure), contact upsert and ticket create
(each caught, `null` on failure), the gated confirmation email, and the 200
response. `b` is the parsed body, `ref` the generated `crypto.randomUUID()`. -/
def handleValidated (env : Env) (b : JsonFields) (w : World) (ref : String) :
    HandlerResult :=
  match w.allocation with
  | .error _ => { outcome := .thrown, trace := ⟨true, false, false, false⟩ }
  | .ok claimNumber =>
    let subEmail := jsToLower (normEmail b)
    let upsert := hsUpsertContact env.HUBSPOT_TOKEN subEmail w.findContact w.createContact
    let contactId : Option String :=
      match upsert.1 with
      | .ok cid => some cid
      | .error _ => none
    let ticketId : Option String :=
      match w.createTicket with
      | .ok tid => tid
      | .error _ => none
    let configured := emailConfigured env
    let emailStatus : EmailStatus :=
      if configured then
        match sendEmail env.EMAIL_API_ENDPOINT env.EMAIL_API_KEY env.FROM_EMAIL
            env.FROM_EMAIL w.send with
        | .ok _ => .sent
        | .error _ => .failed
      else .skipped
    { outcome := .response 200 (.successJson claimNumber ref contactId ticketId
        emailStatus (statusMessage emailStatus)),
      trace := ⟨true, true, true, configured⟩ }

/-- The worker's `fetch(request, env)` (source lines 89–229): OPTIONS
preflight, 405 for non-POST, body parsing, validation with fail-fast 400,
then `handleValidated`. -/
def handleFetch (env : Env) (req : Request) (w : World) (ref : String) :
    HandlerResult :=
  if req.method = "OPTIONS" then
    { outcome := .response 204 (.text ""), trace := Trace.idle }
  else if req.method ≠ "POST" then
    { outcome := .response 405 (.text "Method Not Allowed"), trace := Trace.idle }
  else
    match parsedBody req with
    | .error _ =>
      { outcome := .response 400 (.errorJson ["Invalid request body"]),
        trace := Trace.idle }
    | .ok b =>
      let errors := validationErrors (normVin b) (normEmail b)
      if errors ≠ [] then
        { outcome := .response 400 (.errorJson errors), trace := Trace.idle }
      else handleValidated env b w ref

/-- The `emailStatus` field of a success response, when the outcome is one. -/
def HandlerResult.emailStatusOf : HandlerResult → Option EmailStatus
  | ⟨.response _ (.successJson _ _ _ _ st _), _⟩ => some st
  | _ => none

/-! ## Concrete fixtures used by witnesses and counterexamples -/

/-- A worker env with only the HubSpot token set (email not configured). -/
def sampleEnv : Env := ⟨none, none, none, none, none, none, some "hs-token"⟩

/-- A fully configured email env (endpoint, key, sender all set). -/
def emailEnv : Env :=
  ⟨some "true", some defaultEndpoint, some "brevo-key",
    some "no-reply@example.com", none, none, some "hs-token"⟩

/-- Email enabled with key and sender set but `EMAIL_API_ENDPOINT` unset. -/
def noEndpointEnv : Env :=
  ⟨some "true", none, some "brevo-key", some "no-reply@example.com",
    none, none, some "hs-token"⟩

/-- A world where every outbound call succeeds. -/
def sampleWorld : World :=
  ⟨.ok 100001, fun _ => .ok none, fun _ => .ok (some "c1"), .ok (some "t1"),
    fun _ => .ok ()⟩

/-- A world where the Durable Object allocation call fails. -/
def failAllocWorld : World :=
  ⟨.error (), fun _ => .ok none, fun _ => .ok (some "c1"), .ok (some "t1"),
    fun _ => .ok ()⟩

/-- A world where both HubSpot contact calls fail (upsert throws). -/
def failUpsertWorld : World :=
  ⟨.ok 100001, fun _ => .error (), fun _ => .error (), .ok (some "t1"),
    fun _ => .ok ()⟩

/-- A JSON POST request carrying parse outcome `b` and a form parser that
would throw (it is never consulted on the JSON path). -/
def jsonReq (b : JsonBody) : Request :=
  ⟨"POST", "application/json", b, .error ()⟩

/-- A valid submission body. -/
def goodFields : JsonFields :=
  ⟨some "1HGCM82633A123456", some "user@example.com", none⟩

/-! ## Plumbing lemmas -/

/-- A `POST /next` on the Durable Object is exactly `allocate`. -/
theorem ClaimCounter.fetch_next (s : Option Nat) :
    ClaimCounter.fetch "POST" "/next" s = (.value (allocate s).1, (allocate s).2) := rfl

theorem claimRead_some_succ (n : Nat) : claimRead (some (n + 1)) = n + 1 := by
  simp [claimRead]

/-- The values issued by a schedule form the contiguous range starting just
above what the initial state reads. -/
theorem runCounter_fst (evs : List CounterEvent) : ∀ s : Option Nat,
    (runCounter evs s).1 = List.range' (claimRead s + 1) (numAllocs evs) := by
  induction evs with
  | nil => intro s; rfl
  | cons e evs ih =>
    intro s
    cases e with
    | restart => simpa [runCounter, numAllocs] using ih s
    | alloc =>
      have h := ih (some (claimRead s + 1))
      simp only [runCounter, allocate, numAllocs, h, claimRead_some_succ,
        List.range'_succ]

/-- A POST request is handled by parsing, validating, then `handleValidated`. -/
theorem handleFetch_post (env : Env) (ct : String) (jp : JsonBody)
    (fp : Except Unit JsonFields) (w : World) (ref : String) :
    handleFetch env ⟨"POST", ct, jp, fp⟩ w ref =
      match parsedBody ⟨"POST", ct, jp, fp⟩ with
      | .error _ =>
        ⟨.response 400 (.errorJson ["Invalid request body"]), Trace.idle⟩
      | .ok b =>
        if validationErrors (normVin b) (normEmail b) ≠ [] then
          ⟨.response 400 (.errorJson (validationErrors (normVin b) (normEmail b))),
            Trace.idle⟩
        else handleValidated env b w ref := rfl

/-- A POST request whose body parses goes to validation and, when that
passes, to `handleValidated`. -/
theorem handleFetch_post_ok (env : Env) (ct : String) (jp : JsonBody)
    (fp : Except Unit JsonFields) (w : World) (ref : String) (b : JsonFields)
    (hp : parsedBody ⟨"POST", ct, jp, fp⟩ = .ok b) :
    handleFetch env ⟨"POST", ct, jp, fp⟩ w ref =
      if validationErrors (normVin b) (normEmail b) ≠ [] then
        ⟨.response 400 (.errorJson (validationErrors (normVin b) (normEmail b))),
          Trace.idle⟩
      else handleValidated env b w ref := by
  rw [handleFetch_post, hp]

/-! ## Claims -/

/-- C1: every schedule of successful `POST /next` allocations — with process
restarts (state reloads) anywhere between them — issues a strictly increasing
sequence of integers, with each value strictly above the previous one and no
value ever repeated, from any persisted state. -/
theorem c1_counter_strictly_increasing (evs : List CounterEvent) (s : Option Nat) :
    (runCounter evs s).1.Pairwise (· < ·) ∧ (runCounter evs s).1.Nodup := by
  rw [runCounter_fst]
  exact ⟨List.pairwise_lt_range' _ _, List.nodup_range' _ _⟩

/-- C2: the first `allocate()` ever made — `POST /next` with the persisted key
`"n"` absent — answers `{ n: 100001 }` (the seed 100000 plus one) and persists
100001 as the new counter value. -/
theorem c2_first_allocation_seed :
    ClaimCounter.fetch "POST" "/next" none = (.value 100001, some 100001) ∧
      counterSeed + 1 = 100001 := ⟨rfl, rfl⟩

/-- C4 (counterexample to the claim as stated): on a validated POST whose
allocation call fails, the handler produces no structured JSON failure body —
the rejection escapes `fetch` uncaught (`Outcome.thrown`), contradicting the
claim that the user-visible failure is a structured JSON body. -/
theorem c4_counterexample :
    (handleFetch sampleEnv (jsonReq (.obj goodFields)) failAllocWorld "r").outcome
        = .thrown ∧
      isStructuredJson
        (handleFetch sampleEnv (jsonReq (.obj goodFields)) failAllocWorld "r").outcome
        = false := by decide

/-- C4 (amended): on every POST that passes validation, if the allocation step
fails, the whole request fails — the error escapes the handler uncaught (the
runtime then surfaces a generic 5xx, not a JSON body built by this code), no
claim exists, and no downstream side effect (CRM upsert, ticket, email) is
attempted. -/
theorem c4_allocation_failure_aborts (env : Env) (ct : String)
    (jp : JsonBody) (fp : Except Unit JsonFields) (w : World)
    (ref : String) (b : JsonFields)
    (hp : parsedBody ⟨"POST", ct, jp, fp⟩ = .ok b)
    (hv : validationErrors (normVin b) (normEmail b) = [])
    (ha : w.allocation = .error ()) :
    handleFetch env ⟨"POST", ct, jp, fp⟩ w ref = ⟨.thrown, ⟨true, false, false, false⟩⟩ := by
  rw [handleFetch_post_ok env ct jp fp w ref b hp, if_neg (by simp [hv])]
  unfold handleValidated
  rw [ha]

/-- Witness for C4's amended theorem at a concrete input. -/
theorem c4_witness :
    parsedBody (jsonReq (.obj goodFields)) = .ok goodFields ∧
      validationErrors (normVin goodFields) (normEmail goodFields) = [] ∧
      failAllocWorld.allocation = .error () ∧
      handleFetch sampleEnv (jsonReq (.obj goodFields)) failAllocWorld "r"
        = ⟨.thrown, ⟨true, false, false, false⟩⟩ :=
  ⟨rfl, by decide, rfl,
    c4_allocation_failure_aborts sampleEnv "application/json" (.obj goodFields)
      (.error ()) failAllocWorld "r" goodFields rfl (by decide) rfl⟩

/-- C5: the validation boundary — VIN `"1HGCM82633A123456"` passes the VIN
check; VIN `"1HGCM82633A12345I"` yields a 400 with exactly the VIN message;
email `"not-an-email"` yields a 400 with exactly the email message; both
failing yields both messages in one 400 response. -/
theorem c5_validation_boundary :
    vinValid "1HGCM82633A123456" = true ∧
      (handleFetch sampleEnv
          (jsonReq (.obj ⟨some "1HGCM82633A12345I", some "user@example.com", none⟩))
          sampleWorld "r").outcome
        = .response 400 (.errorJson [vinMessage]) ∧
      (handleFetch sampleEnv
          (jsonReq (.obj ⟨some "1HGCM82633A123456", some "not-an-email", none⟩))
          sampleWorld "r").outcome
        = .response 400 (.errorJson [emailMessage]) ∧
      (handleFetch sampleEnv
          (jsonReq (.obj ⟨some "1HGCM82633A12345I", some "not-an-email", none⟩))
          sampleWorld "r").outcome
        = .response 400 (.errorJson [vinMessage, emailMessage]) := by decide

/-- C6: every POST whose normalized VIN or email fails validation gets a 400
whose body is `{ ok:false, errors }` with the human-readable messages, and no
outbound call is made — in particular the Sequencer is never invoked, so the
persisted counter is untouched. -/
theorem c6_validation_failure_no_allocation (env : Env) (ct : String)
    (jp : JsonBody) (fp : Except Unit JsonFields) (w : World)
    (ref : String) (b : JsonFields)
    (hp : parsedBody ⟨"POST", ct, jp, fp⟩ = .ok b)
    (hv : validationErrors (normVin b) (normEmail b) ≠ []) :
    handleFetch env ⟨"POST", ct, jp, fp⟩ w ref
      = ⟨.response 400 (.errorJson (validationErrors (normVin b) (normEmail b))),
          Trace.idle⟩ := by
  rw [handleFetch_post_ok env ct jp fp w ref b hp, if_pos hv]

/-- Witness for C6 at a concrete input. -/
theorem c6_witness :
    parsedBody (jsonReq (.obj ⟨some "1HGCM82633A12345I", some "not-an-email", none⟩))
        = .ok ⟨some "1HGCM82633A12345I", some "not-an-email", none⟩ ∧
      validationErrors (normVin ⟨some "1HGCM82633A12345I", some "not-an-email", none⟩)
          (normEmail ⟨some "1HGCM82633A12345I", some "not-an-email", none⟩) ≠ [] ∧
      handleFetch sampleEnv
          (jsonReq (.obj ⟨some "1HGCM82633A12345I", some "not-an-email", none⟩))
          sampleWorld "r"
        = ⟨.response 400 (.errorJson [vinMessage, emailMessage]), Trace.idle⟩ :=
  ⟨rfl, by decide, by
    have h := c6_validation_failure_no_allocation sampleEnv "application/json"
      (.obj ⟨some "1HGCM82633A12345I", some "not-an-email", none⟩) (.error ())
      sampleWorld "r" ⟨some "1HGCM82633A12345I", some "not-an-email", none⟩
      rfl (by decide)
    simpa using h⟩

/-- On a successful allocation, the handler result is the 200 success
response assembled from the upsert, ticket, and gated-email outcomes. -/
theorem handleValidated_ok (env : Env) (b : JsonFields) (w : World)
    (ref : String) (n : Nat) (ha : w.allocation = .ok n) :
    handleValidated env b w ref =
      (let upsert := hsUpsertContact env.HUBSPOT_TOKEN (jsToLower (normEmail b))
        w.findContact w.createContact
      let contactId : Option String :=
        match upsert.1 with
        | .ok cid => some cid
        | .error _ => none
      let ticketId : Option String :=
        match w.createTicket with
        | .ok tid => tid
        | .error _ => none
      let st : EmailStatus :=
        if emailConfigured env then
          match sendEmail env.EMAIL_API_ENDPOINT env.EMAIL_API_KEY env.FROM_EMAIL
              env.FROM_EMAIL w.send with
          | .ok _ => .sent
          | .error _ => .failed
        else .skipped
      ⟨.response 200 (.successJson n ref contactId ticketId st (statusMessage st)),
        ⟨true, true, true, emailConfigured env⟩⟩) := by
  unfold handleValidated
  rw [ha]

/-- C7: on every validated submission whose allocation succeeded, a failing
CRM contact upsert does not abort the request: the response is still a 200
success body carrying the allocated claim number with `contactId = null`, the
ticket step is still attempted, and the email step is still attempted exactly
when it is configured. -/
theorem c7_upsert_failure_isolated (env : Env) (ct : String)
    (jp : JsonBody) (fp : Except Unit JsonFields) (w : World)
    (ref : String) (b : JsonFields) (n : Nat)
    (hp : parsedBody ⟨"POST", ct, jp, fp⟩ = .ok b)
    (hv : validationErrors (normVin b) (normEmail b) = [])
    (ha : w.allocation = .ok n)
    (hu : (hsUpsertContact env.HUBSPOT_TOKEN (jsToLower (normEmail b))
        w.findContact w.createContact).1 = .error ()) :
    ∃ tid st, handleFetch env ⟨"POST", ct, jp, fp⟩ w ref =
      ⟨.response 200 (.successJson n ref none tid st (statusMessage st)),
        ⟨true, true, true, emailConfigured env⟩⟩ := by
  rw [handleFetch_post_ok env ct jp fp w ref b hp, if_neg (by simp [hv]),
    handleValidated_ok env b w ref n ha]
  refine ⟨(match w.createTicket with | .ok tid => tid | .error _ => none),
    (if emailConfigured env then
      (match sendEmail env.EMAIL_API_ENDPOINT env.EMAIL_API_KEY env.FROM_EMAIL
          env.FROM_EMAIL w.send with
        | .ok _ => EmailStatus.sent
        | .error _ => EmailStatus.failed)
    else EmailStatus.skipped), ?_⟩
  simp only [hu]

/-- Witness for C7 at a concrete input. -/
theorem c7_witness :
    (hsUpsertContact sampleEnv.HUBSPOT_TOKEN (jsToLower (normEmail goodFields))
        failUpsertWorld.findContact failUpsertWorld.createContact).1 = .error () ∧
      ∃ tid st, handleFetch sampleEnv (jsonReq (.obj goodFields)) failUpsertWorld "r"
        = ⟨.response 200 (.successJson 100001 "r" none tid st (statusMessage st)),
            ⟨true, true, true, emailConfigured sampleEnv⟩⟩ :=
  ⟨rfl,
    c7_upsert_failure_isolated sampleEnv "application/json" (.obj goodFields)
      (.error ()) failUpsertWorld "r" goodFields 100001 rfl (by decide) rfl rfl⟩

/-- C8 (counterexample to the claim as stated): with notification enabled and
API key and sender present but `EMAIL_API_ENDPOINT` unset — the configuration
the claim says is covered by the endpoint's default — and a send that would
succeed, the handler reports `emailStatus = "skipped"` and never attempts the
send, not `"sent"` as the claim requires. -/
theorem c8_counterexample :
    (handleFetch noEndpointEnv (jsonReq (.obj goodFields)) sampleWorld "r").emailStatusOf
        = some .skipped ∧
      (handleFetch noEndpointEnv (jsonReq (.obj goodFields)) sampleWorld "r").trace.sendAttempted
        = false := by decide

/-- C8 (amended): the notification status is determined by the configuration
gate and the send outcome, where the gate requires `EMAIL_ENABLED === "true"`
and all three of endpoint, API key, and sender to be set (the `sendEmail`
default endpoint is never consulted by the gate): gate off means `"skipped"`
with no send attempted; gate on means a send is attempted and the status is
`"sent"` on success and `"failed"` on failure. -/
theorem c8_email_gate (env : Env) (ct : String) (jp : JsonBody)
    (fp : Except Unit JsonFields) (w : World) (ref : String) (b : JsonFields)
    (n : Nat) (hp : parsedBody ⟨"POST", ct, jp, fp⟩ = .ok b)
    (hv : validationErrors (normVin b) (normEmail b) = [])
    (ha : w.allocation = .ok n) :
    (emailConfigured env = false →
      (handleFetch env ⟨"POST", ct, jp, fp⟩ w ref).emailStatusOf = some .skipped ∧
        (handleFetch env ⟨"POST", ct, jp, fp⟩ w ref).trace.sendAttempted = false) ∧
    (emailConfigured env = true →
      (handleFetch env ⟨"POST", ct, jp, fp⟩ w ref).trace.sendAttempted = true ∧
        (sendEmail env.EMAIL_API_ENDPOINT env.EMAIL_API_KEY env.FROM_EMAIL
            env.FROM_EMAIL w.send = .ok () →
          (handleFetch env ⟨"POST", ct, jp, fp⟩ w ref).emailStatusOf = some .sent) ∧
        (sendEmail env.EMAIL_API_ENDPOINT env.EMAIL_API_KEY env.FROM_EMAIL
            env.FROM_EMAIL w.send = .error () →
          (handleFetch env ⟨"POST", ct, jp, fp⟩ w ref).emailStatusOf = some .failed)) := by
  rw [handleFetch_post_ok env ct jp fp w ref b hp, if_neg (by simp [hv]),
    handleValidated_ok env b w ref n ha]
  constructor
  · intro hcfg
    simp [HandlerResult.emailStatusOf, hcfg]
  · intro hcfg
    refine ⟨by simp [hcfg], fun hs => ?_, fun hs => ?_⟩
    · simp [HandlerResult.emailStatusOf, hcfg, hs]
    · simp [HandlerResult.emailStatusOf, hcfg, hs]

/-- Witness for C8's amended theorem at a concrete input (gate on, send ok). -/
theorem c8_witness :
    emailConfigured emailEnv = true ∧
      (handleFetch emailEnv (jsonReq (.obj goodFields)) sampleWorld "r").trace.sendAttempted
        = true ∧
      (handleFetch emailEnv (jsonReq (.obj goodFields)) sampleWorld "r").emailStatusOf
        = some .sent := by
  have h := (c8_email_gate emailEnv "application/json" (.obj goodFields)
    (.error ()) sampleWorld "r" goodFields 100001 rfl (by decide) rfl).2 (by decide)
  exact ⟨by decide, h.1, h.2.1 rfl⟩

/-- C9: the contact upsert is idempotent by email — whenever the CRM lookup
for the (lowercased) email reports an existing contact id, `hsUpsertContact`
returns exactly that id and never calls the contact-create operation; two
submissions with the same email therefore resolve to the same id with no
create call. -/
theorem c9_upsert_idempotent (token : Option String) (email : String)
    (find create : String → Except Unit (Option String)) (cid : String)
    (ht : jsTruthy token = true) (he : email ≠ "")
    (hf : find (jsToLower email) = .ok (some cid)) :
    (hsUpsertContact token email find create).1 = .ok cid ∧
      ∀ e, CrmCall.createContact e ∉ (hsUpsertContact token email find create).2 := by
  simp [hsUpsertContact, ht, he, hf]

/-- Witness for C9 at a concrete input. -/
theorem c9_witness :
    jsTruthy (some "hs-token") = true ∧ "User@Example.com" ≠ "" ∧
      (hsUpsertContact (some "hs-token") "User@Example.com"
          (fun _ => .ok (some "c9")) (fun _ => .ok (some "new"))).1 = .ok "c9" ∧
      CrmCall.createContact "user@example.com" ∉
        (hsUpsertContact (some "hs-token") "User@Example.com"
          (fun _ => .ok (some "c9")) (fun _ => .ok (some "new"))).2 := by
  have h := c9_upsert_idempotent (some "hs-token") "User@Example.com"
    (fun _ => .ok (some "c9")) (fun _ => .ok (some "new")) "c9"
    (by decide) (by decide) rfl
  exact ⟨by decide, by decide, h.1, h.2 _⟩

/-- C10 (counterexample to the claim as stated): a POST whose content type
includes `application/json` and whose body is the valid JSON text `null`
does return the `{ ok:false, errors: ["Invalid request body"] }` 400 — here
with a form parser that would succeed, so the response is not reached through
a non-JSON form-data throw: `request.json()` resolves `null`, the catch does
not fire, `b.vin` throws inside the `try`, and line 122 answers. -/
theorem c10_counterexample :
    handleFetch sampleEnv ⟨"POST", "application/json", .jsNull, .ok goodFields⟩
        sampleWorld "r"
      = ⟨.response 400 (.errorJson ["Invalid request body"]), Trace.idle⟩ ∧
      containsSub (jsToLower "application/json") "application/json" = true := by
  decide

/-- C10 (amended): on a POST whose content type includes `application/json`
but whose body fails to parse as JSON, the handler never answers with the
`{ ok:false, errors: ["Invalid request body"] }` response: the parse failure
is absorbed, the fields default to empty strings, and the request falls
through to field validation, yielding the 400 listing the VIN and email
messages; the "Invalid request body" 400 is reachable only when either the
content type includes `application/json` and the body parses to JSON `null`
(the `b.vin` access throws inside the `try`), or the content type does not
include it and the form-data parse throws. -/
theorem c10_json_parse_fallthrough :
    (∀ (env : Env) (ct : String) (fp : Except Unit JsonFields) (w : World)
        (ref : String),
        containsSub (jsToLower ct) "application/json" = true →
        handleFetch env ⟨"POST", ct, .malformed, fp⟩ w ref =
          ⟨.response 400 (.errorJson [vinMessage, emailMessage]), Trace.idle⟩) ∧
    (∀ (env : Env) (req : Request) (w : World) (ref : String),
        (handleFetch env req w ref).outcome
            = .response 400 (.errorJson ["Invalid request body"]) →
        (containsSub (jsToLower req.contentType) "application/json" = true ∧
            req.jsonParse = .jsNull) ∨
          (containsSub (jsToLower req.contentType) "application/json" = false ∧
            req.formParse = .error ())) := by
  constructor
  · intro env ct fp w ref hct
    have hp : parsedBody ⟨"POST", ct, .malformed, fp⟩ = .ok ⟨none, none, none⟩ := by
      simp [parsedBody, hct]
    rw [handleFetch_post_ok env ct .malformed fp w ref ⟨none, none, none⟩ hp,
      if_pos (by decide)]
    decide
  · intro env req w ref h
    obtain ⟨m, ct, jp, fp⟩ := req
    unfold handleFetch at h
    split at h
    · simp at h
    · split at h
      · simp at h
      · split at h
        next e heq =>
          unfold parsedBody at heq
          split at heq
          next hct =>
            cases jp with
            | malformed => simp at heq
            | jsNull => exact Or.inl ⟨by simpa using hct, rfl⟩
            | obj v => simp at heq
          next hcf =>
            refine Or.inr ⟨by simpa using hcf, ?_⟩
            cases fp with
            | error u => cases u; rfl
            | ok v => simp at heq
        next b heq =>
          simp only [ne_eq] at h
          split at h
          · have hbad : validationErrors (normVin b) (normEmail b)
                = ["Invalid request body"] := by simpa using h
            unfold validationErrors at hbad
            split at hbad <;> split at hbad <;> exact absurd hbad (by decide)
          · unfold handleValidated at h
            split at h
            · simp at h
            · simp at h

/-- Witness for C10's amended theorem at concrete inputs: a JSON POST with an
unparseable body falls through to field validation, and a request that does
produce the "Invalid request body" 400 satisfies the amended reachability
disjunction. -/
theorem c10_witness :
    (containsSub (jsToLower "application/json") "application/json" = true ∧
      handleFetch sampleEnv ⟨"POST", "application/json", .malformed, .error ()⟩
          sampleWorld "r"
        = ⟨.response 400 (.errorJson [vinMessage, emailMessage]), Trace.idle⟩) ∧
      ((containsSub (jsToLower "application/json") "application/json" = true ∧
          (JsonBody.jsNull = JsonBody.jsNull)) ∨
        (containsSub (jsToLower "application/json") "application/json" = false ∧
          (Except.ok goodFields : Except Unit JsonFields) = .error ())) :=
  ⟨⟨by decide,
    c10_json_parse_fallthrough.1 sampleEnv "application/json" (.error ())
      sampleWorld "r" (by decide)⟩,
    c10_json_parse_fallthrough.2 sampleEnv
      ⟨"POST", "application/json", .jsNull, .ok goodFields⟩
      sampleWorld "r" (by decide)⟩

end Warranty
